import Mathlib

/-!
Shallow embedding of the exam-session state machine and scoring engine of
`src/app.py` (a Flask SAT practice app).

Modelling conventions:
* Python dicts are embedded as insertion-ordered association lists; a real
  dict always has pairwise-distinct keys, which theorems assume via a
  `Nodup` hypothesis on the key list where it matters.
* The Flask per-user session is the record `TestSession`; a key that is
  absent from the session is a `none` field.
* `q_idx` in the route `/test/question/<int:q_idx>` is a `Nat`: the Flask
  `int` converter only matches non-negative decimal strings, so a negative
  index can never reach the handler.
* Python's `int(x)` truncation of `(c / max(1, t)) * 600` is embedded as
  exact natural division `c * 600 / max 1 t`.  For every value the code can
  produce (`t` is 10 or 20 and `c` is a count of distinct catalog keys, so
  `c ≤ t`) the IEEE-754 double computation `int((c / t) * 600)` yields the
  same number as the exact floor, checked by enumeration of the sixty
  feasible inputs; likewise `(c / t) < 0.6` in doubles agrees with the exact
  rational comparison at every feasible input.
* Out-of-scope collaborators (database persistence, datetime parsing) enter
  as explicit boolean outcome parameters, per the spec's component split.
-/

/-- One question record of `QUESTIONS_DATA`.  Only the fields the embedded
logic reads are kept: the stable `id` and the `correctAnswer` key.  The
prompt text, passage, options, topic, module and difficulty fields are
never consulted by session handling or scoring. -/
structure Question where
  id : String
  correctAnswer : String
deriving DecidableEq, Repr

/-- Embeds Python `s.startswith(p)` on the character lists. -/
def charListStartsWith : List Char → List Char → Bool
  | [], _ => true
  | _ :: _, [] => false
  | a :: ps, b :: ss => a == b && charListStartsWith ps ss

/-- Python `s.startswith(p)`. -/
def strStartsWith (s p : String) : Bool :=
  charListStartsWith p.data s.data

/-- The `math` list of `QUESTIONS_DATA` (src/app.py lines 127-138). -/
def mathQuestionsData : List Question := [
  ⟨"m1", "7"⟩, ⟨"m2", "50"⟩, ⟨"m3", "40"⟩, ⟨"m4", "18.84"⟩, ⟨"m5", "5"⟩,
  ⟨"m6", "60 mph"⟩, ⟨"m7", "14"⟩, ⟨"m8", "90°"⟩, ⟨"m9", "2^5"⟩, ⟨"m10", "5"⟩]

/-- The `reading_writing` list of `QUESTIONS_DATA` (src/app.py lines 139-160). -/
def readingWritingQuestionsData : List Question := [
  ⟨"rw1", "Journalist"⟩,
  ⟨"rw2", "No, it is a fragment."⟩,
  ⟨"rw3", "liberal"⟩,
  ⟨"rw4", "Cost vs. Benefit of new transport"⟩,
  ⟨"rw5", "\x27are responsible\x27"⟩,
  ⟨"rw6", "jumped and landed"⟩,
  ⟨"rw7", "praiseworthy"⟩,
  ⟨"rw8", "The items needed are: eggs, milk, and bread."⟩,
  ⟨"rw9", "To introduce a contrasting point"⟩,
  ⟨"rw10", "their"⟩,
  ⟨"rw11", "Information became more widespread."⟩,
  ⟨"rw12", "recieved"⟩,
  ⟨"rw13", "Carefully considered"⟩,
  ⟨"rw14", "Not conforming to accepted standards"⟩,
  ⟨"rw15", "Both A and B could be correct depending on context."⟩,
  ⟨"rw16", "The effects of climate change on polar bears"⟩,
  ⟨"rw17", "To work late into the night"⟩,
  ⟨"rw18", "He and I went to the store."⟩,
  ⟨"rw19", "Vivid imagery and suspenseful plot twists"⟩,
  ⟨"rw20", "Present, appearing, or found everywhere"⟩]

/-- `ALL_QUESTIONS = QUESTIONS_DATA["math"] + QUESTIONS_DATA["reading_writing"]`. -/
def ALL_QUESTIONS : List Question :=
  mathQuestionsData ++ readingWritingQuestionsData

/-- `ALL_QUESTIONS_MAP.get(q_id)`: id-to-question lookup.  The ids in
`ALL_QUESTIONS` are pairwise distinct, so first-match lookup coincides with
the Python dict built from the list. -/
def questionLookup (q_id : String) : Option Question :=
  ALL_QUESTIONS.find? (fun q => q.id == q_id)

/-- `ORDERED_QUESTION_IDS = [q['id'] for q in ALL_QUESTIONS]`. -/
def ORDERED_QUESTION_IDS : List String :=
  ALL_QUESTIONS.map (fun q => q.id)

/-- `TOTAL_QUESTIONS = len(ALL_QUESTIONS)`. -/
def TOTAL_QUESTIONS : Nat :=
  ALL_QUESTIONS.length

/-- `sum(1 for q_id in ORDERED_QUESTION_IDS if q_id.startswith('m'))`. -/
def math_total_qs_in_test : Nat :=
  ORDERED_QUESTION_IDS.countP (fun q_id => strStartsWith q_id "m")

/-- `sum(1 for q_id in ORDERED_QUESTION_IDS if q_id.startswith('rw'))`. -/
def rw_total_qs_in_test : Nat :=
  ORDERED_QUESTION_IDS.countP (fun q_id => strStartsWith q_id "rw")

/-- The loop body test of `calculate_mock_score`: the answer entry has a
catalog entry and the given answer equals its `correctAnswer` exactly. -/
def isCountedCorrect (p : String × String) : Bool :=
  match questionLookup p.1 with
  | none => false
  | some question_detail => p.2 == question_detail.correctAnswer

/-- `correct_count` accumulated by the loop of `calculate_mock_score`. -/
def correct_count (answers : List (String × String)) : Nat :=
  answers.countP isCountedCorrect

/-- `math_correct`: correct entries whose id starts with `'m'`. -/
def math_correct (answers : List (String × String)) : Nat :=
  answers.countP (fun p => isCountedCorrect p && strStartsWith p.1 "m")

/-- `rw_correct`: correct entries whose id does not start with `'m'`
(the loop's `else` branch). -/
def rw_correct (answers : List (String × String)) : Nat :=
  answers.countP (fun p => isCountedCorrect p && !(strStartsWith p.1 "m"))

/-- `200 + int((math_correct / max(1, math_total_qs_in_test)) * 600) if
math_total_qs_in_test > 0 else 200` (src/app.py line 213), in exact
arithmetic. -/
def mock_math_score_raw (answers : List (String × String)) : Nat :=
  if 0 < math_total_qs_in_test then
    200 + math_correct answers * 600 / max 1 math_total_qs_in_test
  else 200

/-- `200 + int((rw_correct / max(1, rw_total_qs_in_test)) * 600) if
rw_total_qs_in_test > 0 else 200` (src/app.py line 214). -/
def mock_rw_score_raw (answers : List (String × String)) : Nat :=
  if 0 < rw_total_qs_in_test then
    200 + rw_correct answers * 600 / max 1 rw_total_qs_in_test
  else 200

/-- The `weaknesses` and `recommendations` lists built at the end of
`calculate_mock_score` (src/app.py lines 217-222), the ratio tests taken in
exact rational arithmetic. -/
def weaknessesAndRecommendations (answers : List (String × String)) :
    List String × List String :=
  if 0 < TOTAL_QUESTIONS then
    let wr1 : List String × List String :=
      if 0 < math_total_qs_in_test ∧
          (math_correct answers : ℚ) / (math_total_qs_in_test : ℚ) < 0.6 then
        (["Math Concepts"], ["Review math topics."])
      else ([], [])
    let wr2 : List String × List String :=
      if 0 < rw_total_qs_in_test ∧
          (rw_correct answers : ℚ) / (rw_total_qs_in_test : ℚ) < 0.6 then
        (wr1.1 ++ ["R&W Skills"], wr1.2 ++ ["Focus on R&W techniques."])
      else wr1
    if wr2.1 = [] then (["Good performance!"], ["Keep practicing."]) else wr2
  else (["No questions processed."], ["Check test configuration."])

/-- The dict returned by `calculate_mock_score`. -/
structure ScoreReport where
  total_score : Nat
  math_score : Nat
  rw_score : Nat
  correct_count : Nat
  total_answered : Nat
  total_test_questions : Nat
  weaknesses : List String
  recommendations : List String
deriving DecidableEq, Repr

/-- `calculate_mock_score(answers)` (src/app.py lines 200-223).  The Python
computes the raw section scores, sums them, and then clamps the sections to
`[200, 800]` and the sum to `[400, 1600]` by reassignment; the record below
writes each final field directly. -/
def calculate_mock_score (answers : List (String × String)) : ScoreReport :=
  { total_score := max 400 (min 1600 (mock_math_score_raw answers + mock_rw_score_raw answers))
    math_score := max 200 (min 800 (mock_math_score_raw answers))
    rw_score := max 200 (min 800 (mock_rw_score_raw answers))
    correct_count := correct_count answers
    total_answered := answers.length
    total_test_questions := TOTAL_QUESTIONS
    weaknesses := (weaknessesAndRecommendations answers).1
    recommendations := (weaknessesAndRecommendations answers).2 }

/-- The test-related slice of the Flask session: the five keys touched by
`initialize_test_session`, `test_question_page`, `results` and
`reset_test`.  A `none` field is an absent key. -/
structure TestSession where
  current_question_index : Option Nat
  answers : Option (List (String × String))
  start_time : Option String
  test_questions_ids_ordered : Option (List String)
  marked_for_review : Option (List String)
deriving DecidableEq, Repr

/-- Python dict assignment `d[k] = v`: replace in place if the key exists,
else append. -/
def dictSet (m : List (String × String)) (k v : String) : List (String × String) :=
  if m.any (fun p => p.1 == k) then
    m.map (fun p => if p.1 == k then (k, v) else p)
  else m ++ [(k, v)]

/-- Python `d.get(k)`. -/
def dictGet (m : List (String × String)) (k : String) : Option String :=
  (m.find? (fun p => p.1 == k)).map (fun p => p.2)

/-- `session['marked_for_review'][k] = True` on the review dict, whose
values are always `True`: insert the key if absent. -/
def dictInsertTrue (m : List String) (k : String) : List String :=
  if m.contains k then m else m ++ [k]

/-- `d.pop(k, None)` on the review dict: remove the key if present. -/
def dictPop (m : List String) (k : String) : List String :=
  m.filter (fun x => !(x == k))

/-- `initialize_test_session()` (src/app.py lines 169-197).  The global
`ORDERED_QUESTION_IDS` is passed as the parameter `catalogIds` and the
wall-clock `datetime.now().isoformat()` as `now`.  The function first pops
the five test keys, then writes `current_question_index`, `answers` and
`start_time`, and only then checks the catalog: on an empty catalog it
raises `ValueError` with those three keys already written.  The mutated
session travels with the outcome. -/
def initialize_test_session (catalogIds : List String) (now : String)
    (sess : TestSession) : Except String Unit × TestSession :=
  let s1 : TestSession :=
    { sess with current_question_index := none, answers := none,
                start_time := none, test_questions_ids_ordered := none,
                marked_for_review := none }
  let s2 : TestSession :=
    { s1 with current_question_index := some 0, answers := some [],
              start_time := some now }
  if catalogIds.isEmpty then
    (Except.error "Cannot start test: No questions are available. Please check server configuration or question data.", s2)
  else
    let s3 : TestSession :=
      { s2 with test_questions_ids_ordered := some catalogIds,
                marked_for_review := some [] }
    (Except.ok (), s3)

/-- The form fields a POST to the question page may carry. -/
structure FormData where
  answer : Option String
  mark_review : Option String
  action : Option String
deriving DecidableEq, Repr

/-- Request method for the question page. -/
inductive Method where
  | get
  | post (form : FormData)
deriving DecidableEq, Repr

/-- The observable outcome of a question-page request: redirect to the
index page (invalid session or corrupted question data), redirect to a
question index, redirect to the results page, or render a question. -/
inductive Response where
  | redirectIndex
  | redirectQuestion (q_idx : Nat)
  | redirectResults
  | renderQuestion (question : Question) (question_number : Nat)
      (is_marked : Bool) (selected : Option String)
deriving DecidableEq, Repr

/-- The POST branch's session mutations (src/app.py lines 411-423): record
the answer when the submitted value is non-empty, and set or clear the
review mark depending on whether the form carries `mark_review = 'true'`. -/
def postUpdate (answers : List (String × String)) (marked : List String)
    (question_id : String) (form : FormData) :
    List (String × String) × List String :=
  let answers2 :=
    match form.answer with
    | some v => if v = "" then answers else dictSet answers question_id v
    | none => answers
  let marked2 :=
    if form.mark_review = some "true" then dictInsertTrue marked question_id
    else dictPop marked question_id
  (answers2, marked2)

/-- The POST branch's navigation outcome (src/app.py lines 425-438):
`next` advances or, from the last index, goes to the results page; `back`
retreats when the index is positive; every other case (including `back` at
index 0 and a bare review-toggle submit) redisplays the same index. -/
def postNavigate (q_idx len : Nat) (form : FormData) : Response :=
  if form.action = some "next" then
    if q_idx + 1 < len then Response.redirectQuestion (q_idx + 1)
    else Response.redirectResults
  else if form.action = some "back" ∧ 0 < q_idx then
    Response.redirectQuestion (q_idx - 1)
  else Response.redirectQuestion q_idx

/-- `test_question_page(q_idx)` (src/app.py lines 363-451).  The handler
first validates that the five session keys are present and the ordered id
list is non-empty, else redirects to the index page; then bounds-checks
`q_idx`, redirecting out-of-range requests to the stored
`current_question_index` clamped to 0; then records `q_idx` as the current
index, resolves the question id in the catalog (redirecting to the index
page if it is missing), and finally either applies the POST mutations and
navigates, or renders the question.  (The source checks the out-of-range
case first; the branches are the same.) -/
def test_question_page (sess : TestSession) (q_idx : Nat) (m : Method) :
    Response × TestSession :=
  match sess with
  | ⟨some cur, some answers, some _start, some ordered, some marked⟩ =>
    if ordered.isEmpty then (Response.redirectIndex, sess)
    else if q_idx < ordered.length then
      let sess1 : TestSession := { sess with current_question_index := some q_idx }
      let question_id := ordered.getD q_idx ""
      match questionLookup question_id with
      | none => (Response.redirectIndex, sess1)
      | some question =>
        match m with
        | Method.get =>
          (Response.renderQuestion question (q_idx + 1)
            (marked.contains question_id) (dictGet answers question_id), sess1)
        | Method.post form =>
          let updated := postUpdate answers marked question_id form
          let sess2 : TestSession :=
            { sess1 with answers := some updated.1,
                         marked_for_review := some updated.2 }
          (postNavigate q_idx ordered.length form, sess2)
    else
      let valid_q_idx := cur
      let valid_q_idx := if valid_q_idx < ordered.length then valid_q_idx else 0
      (Response.redirectQuestion valid_q_idx, sess)
  | _ => (Response.redirectIndex, sess)

/-- The observable outcome of the `/results` request. -/
inductive ResultsResponse where
  | redirectIndex
  | renderResults (results : ScoreReport) (score_id : Option Nat)
deriving DecidableEq, Repr

/-- `results()` (src/app.py lines 453-512).  Collaborator outcomes enter as
parameters: `start_time_parse_ok` is whether `datetime.fromisoformat`
accepts the stored start time, and `persist_ok` is whether the database
commit of the `Score` row succeeds (the `except` branch rolls back, flashes
and continues with `score_id_for_template = None`).  The elapsed-time
display string added to the summary dict is outside the model (pure time
formatting).  After scoring, the five test keys are popped from the session
unconditionally. -/
def results (sess : TestSession) (start_time_parse_ok : Bool)
    (persist_ok : Bool) (new_score_id : Nat) : ResultsResponse × TestSession :=
  if sess.answers.isNone ∨ sess.start_time.isNone then
    (ResultsResponse.redirectIndex, sess)
  else
    let user_submitted_answers := sess.answers.getD []
    let start_time_iso := sess.start_time.getD ""
    if start_time_iso = "" then (ResultsResponse.redirectIndex, sess)
    else if start_time_parse_ok = false then (ResultsResponse.redirectIndex, sess)
    else
      let results_summary := calculate_mock_score user_submitted_answers
      let score_id_for_template : Option Nat :=
        if persist_ok then some new_score_id else none
      let cleared : TestSession :=
        { sess with current_question_index := none, answers := none,
                    start_time := none, test_questions_ids_ordered := none,
                    marked_for_review := none }
      (ResultsResponse.renderResults results_summary score_id_for_template, cleared)

/-- The spec's session-shape invariant: the keys of `answers` and of
`marked_for_review` are subsets of `test_questions_ids_ordered`. -/
def SessionKeysInv (s : TestSession) : Prop :=
  (∀ p ∈ s.answers.getD [], p.1 ∈ s.test_questions_ids_ordered.getD []) ∧
  (∀ k ∈ s.marked_for_review.getD [], k ∈ s.test_questions_ids_ordered.getD [])

instance (s : TestSession) : Decidable (SessionKeysInv s) := by
  unfold SessionKeysInv; infer_instance

example : math_total_qs_in_test = 10 := by decide
example : rw_total_qs_in_test = 20 := by decide
example : questionLookup "zzz" = none := by decide
example : (questionLookup "m1").isSome = true := by decide

/-! ## Helper lemmas -/

lemma getD_mem_of_lt (l : List String) (i : Nat) (d : String)
    (h : i < l.length) : l.getD i d ∈ l := by
  induction l generalizing i with
  | nil => simp at h
  | cons a t ih =>
    cases i with
    | zero => simp [List.getD]
    | succ n =>
      have : t.getD n d ∈ t := ih n (by simpa using h)
      simp only [List.getD_cons_succ]
      exact List.mem_cons_of_mem _ this

/-- A predicate that forces the key into a duplicate-free list `S` is
satisfied at most `S.length` times in a list with pairwise-distinct keys. -/
lemma countP_keys_le (l : List (String × String)) (P : String × String → Bool)
    (S : List String) (hnd : (l.map Prod.fst).Nodup)
    (hP : ∀ p ∈ l, P p = true → p.1 ∈ S) : l.countP P ≤ S.length := by
  have h1 : l.countP P = ((l.filter P).map Prod.fst).length := by
    rw [List.countP_eq_length_filter, List.length_map]
  have hfs : List.Sublist (l.filter P) l := List.filter_sublist l
  have hsub : List.Sublist ((l.filter P).map Prod.fst) (l.map Prod.fst) :=
    hfs.map Prod.fst
  have h2 : ((l.filter P).map Prod.fst).Nodup := hnd.sublist hsub
  have h3 : ((l.filter P).map Prod.fst).toFinset ⊆ S.toFinset := by
    intro x hx
    rw [List.mem_toFinset] at hx ⊢
    obtain ⟨p, hp, rfl⟩ := List.mem_map.mp hx
    exact hP p (List.mem_filter.mp hp).1 (List.mem_filter.mp hp).2
  calc l.countP P = ((l.filter P).map Prod.fst).length := h1
    _ = ((l.filter P).map Prod.fst).toFinset.card :=
        (List.toFinset_card_of_nodup h2).symm
    _ ≤ S.toFinset.card := Finset.card_le_card h3
    _ ≤ S.length := S.toFinset_card_le

/-- The ten math ids of the catalog. -/
def mathIdList : List String :=
  ["m1", "m2", "m3", "m4", "m5", "m6", "m7", "m8", "m9", "m10"]

/-- The twenty reading-writing ids of the catalog. -/
def rwIdList : List String :=
  ["rw1", "rw2", "rw3", "rw4", "rw5", "rw6", "rw7", "rw8", "rw9", "rw10",
   "rw11", "rw12", "rw13", "rw14", "rw15", "rw16", "rw17", "rw18", "rw19", "rw20"]

lemma counted_math_key_mem (p : String × String)
    (hc : (isCountedCorrect p && strStartsWith p.1 "m") = true) :
    p.1 ∈ mathIdList := by
  rw [Bool.and_eq_true] at hc
  obtain ⟨h1, h2⟩ := hc
  unfold isCountedCorrect at h1
  cases hq : questionLookup p.1 with
  | none => rw [hq] at h1; exact absurd h1 (by simp)
  | some q =>
    have hqmem : q ∈ ALL_QUESTIONS := List.mem_of_find?_eq_some hq
    have hqid : q.id = p.1 := by simpa using List.find?_some hq
    rw [← hqid] at h2 ⊢
    have key : ∀ q ∈ ALL_QUESTIONS, strStartsWith q.id "m" = true →
        q.id ∈ mathIdList := by decide
    exact key q hqmem h2

lemma counted_rw_key_mem (p : String × String)
    (hc : (isCountedCorrect p && !(strStartsWith p.1 "m")) = true) :
    p.1 ∈ rwIdList := by
  rw [Bool.and_eq_true] at hc
  obtain ⟨h1, h2⟩ := hc
  unfold isCountedCorrect at h1
  cases hq : questionLookup p.1 with
  | none => rw [hq] at h1; exact absurd h1 (by simp)
  | some q =>
    have hqmem : q ∈ ALL_QUESTIONS := List.mem_of_find?_eq_some hq
    have hqid : q.id = p.1 := by simpa using List.find?_some hq
    rw [← hqid] at h2 ⊢
    have key : ∀ q ∈ ALL_QUESTIONS, (!(strStartsWith q.id "m")) = true →
        q.id ∈ rwIdList := by decide
    exact key q hqmem h2

lemma math_correct_le_ten (answers : List (String × String))
    (h : (answers.map Prod.fst).Nodup) : math_correct answers ≤ 10 :=
  countP_keys_le answers _ mathIdList h
    (fun p _ hPp => counted_math_key_mem p hPp)

lemma rw_correct_le_twenty (answers : List (String × String))
    (h : (answers.map Prod.fst).Nodup) : rw_correct answers ≤ 20 :=
  countP_keys_le answers _ rwIdList h
    (fun p _ hPp => counted_rw_key_mem p hPp)

/-! ## Claim C1 -/

/-- C1: for every answers map (distinct keys, as in a Python dict), each
section score of `calculate_mock_score` is
`200 + floor((sectionCorrect / max(1, sectionTotal)) * 600)` when the
section's total is positive and `200` otherwise, clamped to `[200, 800]`;
the composite equals the sum of the two section scores clamped to
`[400, 1600]`; and all clamps hold. -/
theorem claim1_scoring_formula_and_clamps (answers : List (String × String))
    (h : (answers.map Prod.fst).Nodup) :
    (calculate_mock_score answers).math_score
        = max 200 (min 800 (if 0 < math_total_qs_in_test then
            200 + math_correct answers * 600 / max 1 math_total_qs_in_test else 200))
    ∧ (calculate_mock_score answers).rw_score
        = max 200 (min 800 (if 0 < rw_total_qs_in_test then
            200 + rw_correct answers * 600 / max 1 rw_total_qs_in_test else 200))
    ∧ (calculate_mock_score answers).total_score
        = max 400 (min 1600 ((calculate_mock_score answers).math_score
            + (calculate_mock_score answers).rw_score))
    ∧ 200 ≤ (calculate_mock_score answers).math_score
    ∧ (calculate_mock_score answers).math_score ≤ 800
    ∧ 200 ≤ (calculate_mock_score answers).rw_score
    ∧ (calculate_mock_score answers).rw_score ≤ 800
    ∧ 400 ≤ (calculate_mock_score answers).total_score
    ∧ (calculate_mock_score answers).total_score ≤ 1600 := by
  have hmt : math_total_qs_in_test = 10 := by decide
  have hrt : rw_total_qs_in_test = 20 := by decide
  have hmc : math_correct answers ≤ 10 := math_correct_le_ten answers h
  have hrc : rw_correct answers ≤ 20 := rw_correct_le_twenty answers h
  have em : mock_math_score_raw answers = 200 + math_correct answers * 600 / 10 := by
    rw [mock_math_score_raw, hmt]; norm_num
  have er : mock_rw_score_raw answers = 200 + rw_correct answers * 600 / 20 := by
    rw [mock_rw_score_raw, hrt]; norm_num
  refine ⟨rfl, rfl, ?_, ?_, ?_, ?_, ?_, ?_, ?_⟩ <;>
    simp only [calculate_mock_score, em, er] <;> omega

/-- Witness for C1 at a concrete answers map. -/
theorem claim1_witness :
    (([("m1", "7"), ("rw1", "Journalist"), ("zzz", "A")].map
        (Prod.fst (α := String) (β := String))).Nodup)
    ∧ ((calculate_mock_score [("m1", "7"), ("rw1", "Journalist"), ("zzz", "A")]).math_score
        = max 200 (min 800 (if 0 < math_total_qs_in_test then
            200 + math_correct [("m1", "7"), ("rw1", "Journalist"), ("zzz", "A")] * 600
              / max 1 math_total_qs_in_test else 200))
      ∧ (calculate_mock_score [("m1", "7"), ("rw1", "Journalist"), ("zzz", "A")]).rw_score
        = max 200 (min 800 (if 0 < rw_total_qs_in_test then
            200 + rw_correct [("m1", "7"), ("rw1", "Journalist"), ("zzz", "A")] * 600
              / max 1 rw_total_qs_in_test else 200))
      ∧ (calculate_mock_score [("m1", "7"), ("rw1", "Journalist"), ("zzz", "A")]).total_score
        = max 400 (min 1600
            ((calculate_mock_score [("m1", "7"), ("rw1", "Journalist"), ("zzz", "A")]).math_score
              + (calculate_mock_score [("m1", "7"), ("rw1", "Journalist"), ("zzz", "A")]).rw_score))
      ∧ 200 ≤ (calculate_mock_score [("m1", "7"), ("rw1", "Journalist"), ("zzz", "A")]).math_score
      ∧ (calculate_mock_score [("m1", "7"), ("rw1", "Journalist"), ("zzz", "A")]).math_score ≤ 800
      ∧ 200 ≤ (calculate_mock_score [("m1", "7"), ("rw1", "Journalist"), ("zzz", "A")]).rw_score
      ∧ (calculate_mock_score [("m1", "7"), ("rw1", "Journalist"), ("zzz", "A")]).rw_score ≤ 800
      ∧ 400 ≤ (calculate_mock_score [("m1", "7"), ("rw1", "Journalist"), ("zzz", "A")]).total_score
      ∧ (calculate_mock_score [("m1", "7"), ("rw1", "Journalist"), ("zzz", "A")]).total_score ≤ 1600) :=
  ⟨by decide,
   claim1_scoring_formula_and_clamps [("m1", "7"), ("rw1", "Journalist"), ("zzz", "A")] (by decide)⟩

/-! ## Claim C2 -/

/-- C2: an answers entry whose key has no catalog entry is skipped by the
correct count and by both section counters, while `total_answered` still
counts every key of the answers map, the unknown one included. -/
theorem claim2_unknown_id_skipped (pre post : List (String × String)) (k v : String)
    (hk : questionLookup k = none) :
    correct_count (pre ++ (k, v) :: post) = correct_count (pre ++ post)
    ∧ math_correct (pre ++ (k, v) :: post) = math_correct (pre ++ post)
    ∧ rw_correct (pre ++ (k, v) :: post) = rw_correct (pre ++ post)
    ∧ (calculate_mock_score (pre ++ (k, v) :: post)).total_answered
        = (pre ++ (k, v) :: post).length
    ∧ (pre ++ (k, v) :: post).length = (pre ++ post).length + 1 := by
  have hfalse : isCountedCorrect (k, v) = false := by
    unfold isCountedCorrect; rw [hk]
  refine ⟨?_, ?_, ?_, ?_, ?_⟩ <;>
    simp [correct_count, math_correct, rw_correct, calculate_mock_score,
      List.countP_append, List.countP_cons, hfalse]
  omega

/-- Witness for C2 at a concrete answers map containing the unknown id
`"zzz"`. -/
theorem claim2_witness :
    questionLookup "zzz" = none
    ∧ correct_count [("m1", "7"), ("zzz", "A")] = correct_count [("m1", "7")]
    ∧ math_correct [("m1", "7"), ("zzz", "A")] = math_correct [("m1", "7")]
    ∧ (calculate_mock_score [("m1", "7"), ("zzz", "A")]).total_answered = 2 :=
  ⟨by decide,
   (claim2_unknown_id_skipped [("m1", "7")] [] "zzz" "A" (by decide)).1,
   (claim2_unknown_id_skipped [("m1", "7")] [] "zzz" "A" (by decide)).2.1,
   by decide⟩

/-! ## Claim C3 -/

/-- C3: on a non-empty catalog, `initialize_test_session` succeeds and
produces `currentIndex = 0`, empty `answers`, empty `markedForReview`, the
fresh `start_time`, and a full copy of the catalog ordering; the outcome is
independent of whatever session state existed before (clear-then-set, not
merge). -/
theorem claim3_start_fresh_session (catalogIds : List String) (now : String)
    (sess sess' : TestSession) (h : catalogIds ≠ []) :
    initialize_test_session catalogIds now sess
        = (Except.ok (), ⟨some 0, some [], some now, some catalogIds, some []⟩)
    ∧ initialize_test_session catalogIds now sess
        = initialize_test_session catalogIds now sess'
    ∧ ((initialize_test_session catalogIds now sess).2.test_questions_ids_ordered.getD []).length
        = catalogIds.length := by
  have hE : catalogIds.isEmpty = false := by
    cases catalogIds with
    | nil => exact absurd rfl h
    | cons a t => rfl
  refine ⟨?_, ?_, ?_⟩ <;> simp [initialize_test_session, hE]

/-- Witness for C3: a dirty prior session is fully discarded. -/
theorem claim3_witness :
    (["m1", "rw1"] : List String) ≠ []
    ∧ (initialize_test_session ["m1", "rw1"] "2024-01-01T00:00:00"
          ⟨some 7, some [("m1", "old")], some "old-time", some ["m1"], some ["m1"]⟩
        = (Except.ok (), ⟨some 0, some [], some "2024-01-01T00:00:00",
            some ["m1", "rw1"], some []⟩)
      ∧ initialize_test_session ["m1", "rw1"] "2024-01-01T00:00:00"
          ⟨some 7, some [("m1", "old")], some "old-time", some ["m1"], some ["m1"]⟩
        = initialize_test_session ["m1", "rw1"] "2024-01-01T00:00:00"
          ⟨none, none, none, none, none⟩
      ∧ ((initialize_test_session ["m1", "rw1"] "2024-01-01T00:00:00"
          ⟨some 7, some [("m1", "old")], some "old-time", some ["m1"], some ["m1"]⟩).2.test_questions_ids_ordered.getD []).length
        = (["m1", "rw1"] : List String).length) :=
  ⟨by decide,
   claim3_start_fresh_session ["m1", "rw1"] "2024-01-01T00:00:00"
     ⟨some 7, some [("m1", "old")], some "old-time", some ["m1"], some ["m1"]⟩
     ⟨none, none, none, none, none⟩ (by decide)⟩

/-! ## Claim C4

The claim's first half holds: an empty catalog makes start fail with the
no-questions error.  Its second half fails on the code:
`initialize_test_session` pops the five test keys and writes
`current_question_index = 0`, `answers = {}` and `start_time` *before* it
checks the catalog, so the error path leaves the store half-updated. -/

/-- A dirty session used to exhibit the partial mutation. -/
def dirtySession : TestSession :=
  ⟨some 5, some [("m1", "7")], some "old-time", some ["m1"], some ["m1"]⟩

/-- C4 counterexample: starting with an empty catalog from `dirtySession`
raises the error, yet the resulting store differs both from the prior state
and from a fully-unwritten state: `start_time` has been freshly written
while the ordered-ids and review keys are gone. -/
theorem claim4_counterexample :
    (initialize_test_session [] "t0" dirtySession).1
        = Except.error "Cannot start test: No questions are available. Please check server configuration or question data."
    ∧ (initialize_test_session [] "t0" dirtySession).2.start_time = some "t0"
    ∧ (initialize_test_session [] "t0" dirtySession).2.current_question_index = some 0
    ∧ (initialize_test_session [] "t0" dirtySession).2.test_questions_ids_ordered = none
    ∧ (initialize_test_session [] "t0" dirtySession).2 ≠ dirtySession := by
  refine ⟨rfl, rfl, rfl, rfl, ?_⟩
  decide

/-- C4 amended: on an empty catalog, start fails with the
no-questions-available error, but the session store is partially mutated:
all five test keys are first cleared and `current_question_index = 0`,
`answers = {}` and the fresh `start_time` are written before the failure;
`test_questions_ids_ordered` and `marked_for_review` remain unset. -/
theorem claim4_error_with_partial_write (now : String) (sess : TestSession) :
    initialize_test_session [] now sess
        = (Except.error "Cannot start test: No questions are available. Please check server configuration or question data.",
           ⟨some 0, some [], some now, none, none⟩) := rfl

/-! ## Reduction lemmas for `test_question_page` -/

lemma tqp_oob_eq (cur : Nat) (ans : List (String × String)) (st : String)
    (ids marked : List String) (i : Nat) (m : Method)
    (hne : ids ≠ []) (hge : ids.length ≤ i) :
    test_question_page ⟨some cur, some ans, some st, some ids, some marked⟩ i m
      = (Response.redirectQuestion (if cur < ids.length then cur else 0),
         ⟨some cur, some ans, some st, some ids, some marked⟩) := by
  have hE : ids.isEmpty = false := by
    cases ids with
    | nil => exact absurd rfl hne
    | cons a t => rfl
  have hnlt : ¬ i < ids.length := by omega
  simp [test_question_page, hE, hnlt]

lemma tqp_lookup_none_eq (cur : Nat) (ans : List (String × String)) (st : String)
    (ids marked : List String) (i : Nat) (m : Method)
    (hlt : i < ids.length) (hq : questionLookup (ids.getD i "") = none) :
    test_question_page ⟨some cur, some ans, some st, some ids, some marked⟩ i m
      = (Response.redirectIndex,
         ⟨some i, some ans, some st, some ids, some marked⟩) := by
  have hE : ids.isEmpty = false := by
    cases ids with
    | nil => simp at hlt
    | cons a t => rfl
  rw [List.getD_eq_getElem _ _ hlt] at hq
  simp [test_question_page, hE, hlt, hq]

lemma tqp_get_eq (cur : Nat) (ans : List (String × String)) (st : String)
    (ids marked : List String) (i : Nat) (q : Question)
    (hlt : i < ids.length) (hq : questionLookup (ids.getD i "") = some q) :
    test_question_page ⟨some cur, some ans, some st, some ids, some marked⟩ i Method.get
      = (Response.renderQuestion q (i + 1) (marked.contains (ids.getD i ""))
           (dictGet ans (ids.getD i "")),
         ⟨some i, some ans, some st, some ids, some marked⟩) := by
  have hE : ids.isEmpty = false := by
    cases ids with
    | nil => simp at hlt
    | cons a t => rfl
  rw [List.getD_eq_getElem _ _ hlt] at hq
  simp [test_question_page, hE, hlt, hq]

lemma tqp_post_eq (cur : Nat) (ans : List (String × String)) (st : String)
    (ids marked : List String) (i : Nat) (form : FormData) (q : Question)
    (hlt : i < ids.length) (hq : questionLookup (ids.getD i "") = some q) :
    test_question_page ⟨some cur, some ans, some st, some ids, some marked⟩ i
        (Method.post form)
      = (postNavigate i ids.length form,
         ⟨some i, some (postUpdate ans marked (ids.getD i "") form).1, some st,
          some ids, some (postUpdate ans marked (ids.getD i "") form).2⟩) := by
  have hE : ids.isEmpty = false := by
    cases ids with
    | nil => simp at hlt
    | cons a t => rfl
  rw [List.getD_eq_getElem _ _ hlt] at hq
  simp [test_question_page, hE, hlt, hq]

/-! ## Claim C5

The out-of-range clamping half of the claim holds, and the in-range half
holds for every session whose ordered ids all resolve in the catalog (in
particular for every session `initialize_test_session` can produce).  The
claim quantifies over *every* session, however, and a session whose
ordered list carries an id with no catalog entry (the spec's
dangling-id/`CatalogIntegrityError` situation) gets a redirect to the index
page at an in-range index, not a Question. -/

/-- A structurally complete session whose single ordered id has no catalog
entry. -/
def danglingIdSession : TestSession :=
  ⟨some 0, some [], some "t0", some ["zzz"], some []⟩

/-- C5 counterexample: index 0 is in range for `danglingIdSession`, yet the
view request yields a redirect to the index page rather than a rendered
Question. -/
theorem claim5_counterexample :
    0 < (danglingIdSession.test_questions_ids_ordered.getD []).length
    ∧ (test_question_page danglingIdSession 0 Method.get).1 = Response.redirectIndex := by
  decide

/-- C5 amended: for a session whose five keys are present, whose ordered id
list is non-empty and all of whose ordered ids resolve in the catalog, an
in-range view renders exactly the catalog question of `orderedIds[i]`,
while an out-of-range view serves no question and redirects to the stored
current index, clamped to 0 when that too is out of range — and the clamped
target is always in range. -/
theorem claim5_view_serves_catalog_question (cur : Nat)
    (ans : List (String × String)) (st : String) (ids marked : List String)
    (i : Nat) (hne : ids ≠ [])
    (hcat : ∀ qid ∈ ids, (questionLookup qid).isSome) :
    (i < ids.length →
      (test_question_page ⟨some cur, some ans, some st, some ids, some marked⟩ i
          Method.get).1
        = Response.renderQuestion ((questionLookup (ids.getD i "")).getD ⟨"", ""⟩)
            (i + 1) (marked.contains (ids.getD i "")) (dictGet ans (ids.getD i ""))
      ∧ ((questionLookup (ids.getD i "")).getD ⟨"", ""⟩).id = ids.getD i "")
    ∧ (ids.length ≤ i →
      (test_question_page ⟨some cur, some ans, some st, some ids, some marked⟩ i
          Method.get).1
        = Response.redirectQuestion (if cur < ids.length then cur else 0)
      ∧ (if cur < ids.length then cur else 0) < ids.length
      ∧ (test_question_page ⟨some cur, some ans, some st, some ids, some marked⟩ i
          Method.get).2
        = ⟨some cur, some ans, some st, some ids, some marked⟩) := by
  constructor
  · intro hlt
    have hmem := getD_mem_of_lt ids i "" hlt
    obtain ⟨q, hq⟩ := Option.isSome_iff_exists.mp (hcat _ hmem)
    have e : (questionLookup (ids.getD i "")).getD ⟨"", ""⟩ = q := by rw [hq]; rfl
    have hid : q.id = ids.getD i "" := by simpa using List.find?_some hq
    exact ⟨by rw [tqp_get_eq cur ans st ids marked i q hlt hq, e],
           by rw [e]; exact hid⟩
  · intro hge
    refine ⟨by rw [tqp_oob_eq cur ans st ids marked i Method.get hne hge], ?_,
            by rw [tqp_oob_eq cur ans st ids marked i Method.get hne hge]⟩
    by_cases hc : cur < ids.length
    · rw [if_pos hc]; exact hc
    · rw [if_neg hc]; exact List.length_pos.mpr hne

/-- Witness for (amended) C5 at a concrete catalog-backed session. -/
theorem claim5_witness :
    (test_question_page ⟨some 0, some [], some "t0", some ["m1"], some []⟩ 0
        Method.get).1
      = Response.renderQuestion
          ((questionLookup ((["m1"] : List String).getD 0 "")).getD ⟨"", ""⟩) (0 + 1)
          (([] : List String).contains ((["m1"] : List String).getD 0 ""))
          (dictGet [] ((["m1"] : List String).getD 0 ""))
    ∧ ((questionLookup ((["m1"] : List String).getD 0 "")).getD ⟨"", ""⟩).id
      = (["m1"] : List String).getD 0 "" :=
  (claim5_view_serves_catalog_question 0 [] "t0" ["m1"] [] 0 (by decide)
    (by decide)).1 (by decide)

/-! ## Claim C6

The navigation directives all hold: `next` from the last index goes to the
results page, `back` from index 0 redisplays index 0 (a `Nat`, never
negative), and the other cases redirect to `q_idx ± 1`.  The final part of
the claim fails on the code: the handler records the *submitted* index in
`current_question_index` (src/app.py line 401) and then merely redirects;
`current_question_index` becomes the target index only when the redirected
view request is served. -/

/-- A catalog-backed two-question session at index 0. -/
def twoQuestionSession : TestSession :=
  ⟨some 0, some [], some "t0", some ["m1", "m2"], some []⟩

/-- A POST form carrying only the `next` action. -/
def nextOnlyForm : FormData := ⟨none, none, some "next"⟩

/-- C6 counterexample: advancing with `next` from index 0 of a two-question
session redirects to index 1, yet the stored `current_question_index` after
the advance is still 0, not 1. -/
theorem claim6_counterexample :
    (test_question_page twoQuestionSession 0 (Method.post nextOnlyForm)).1
      = Response.redirectQuestion 1
    ∧ (test_question_page twoQuestionSession 0
        (Method.post nextOnlyForm)).2.current_question_index = some 0
    ∧ (some 0 : Option Nat) ≠ some 1 := by
  decide

/-- C6 amended: for an in-range advance on a catalog-backed session, `next`
from the last index signals the results page, `back` from index 0 redisplays
index 0, other cases redirect to `q_idx ± 1`; after the advance the session
still stores the submitted index, and the stored index becomes the target
index when the redirected view request is served. -/
theorem claim6_advance_directives (cur : Nat) (ans : List (String × String))
    (st : String) (ids marked : List String) (i : Nat) (form : FormData)
    (hcat : ∀ qid ∈ ids, (questionLookup qid).isSome) (hlt : i < ids.length) :
    (form.action = some "next" → i + 1 = ids.length →
      (test_question_page ⟨some cur, some ans, some st, some ids, some marked⟩ i
          (Method.post form)).1 = Response.redirectResults)
    ∧ (form.action = some "back" → i = 0 →
      (test_question_page ⟨some cur, some ans, some st, some ids, some marked⟩ i
          (Method.post form)).1 = Response.redirectQuestion i)
    ∧ (form.action = some "next" → i + 1 < ids.length →
      (test_question_page ⟨some cur, some ans, some st, some ids, some marked⟩ i
          (Method.post form)).1 = Response.redirectQuestion (i + 1)
      ∧ (test_question_page
          (test_question_page ⟨some cur, some ans, some st, some ids, some marked⟩ i
            (Method.post form)).2 (i + 1) Method.get).2.current_question_index
        = some (i + 1))
    ∧ (form.action = some "back" → 0 < i →
      (test_question_page ⟨some cur, some ans, some st, some ids, some marked⟩ i
          (Method.post form)).1 = Response.redirectQuestion (i - 1)
      ∧ (test_question_page
          (test_question_page ⟨some cur, some ans, some st, some ids, some marked⟩ i
            (Method.post form)).2 (i - 1) Method.get).2.current_question_index
        = some (i - 1))
    ∧ (test_question_page ⟨some cur, some ans, some st, some ids, some marked⟩ i
        (Method.post form)).2.current_question_index = some i := by
  have hmem := getD_mem_of_lt ids i "" hlt
  obtain ⟨q, hq⟩ := Option.isSome_iff_exists.mp (hcat _ hmem)
  have hpost := tqp_post_eq cur ans st ids marked i form q hlt hq
  refine ⟨?_, ?_, ?_, ?_, ?_⟩
  · intro ha hlen
    simp only [hpost]
    simp [postNavigate, ha, hlen]
  · intro ha hi
    simp only [hpost]
    simp [postNavigate, ha, hi]
  · intro ha hlen
    constructor
    · simp only [hpost]
      simp [postNavigate, ha, hlen]
    · have hmem2 := getD_mem_of_lt ids (i + 1) "" hlen
      obtain ⟨q2, hq2⟩ := Option.isSome_iff_exists.mp (hcat _ hmem2)
      simp only [hpost]
      rw [tqp_get_eq i _ st ids _ (i + 1) q2 hlen hq2]
  · intro ha hi
    have hlen2 : i - 1 < ids.length := by omega
    constructor
    · simp only [hpost]
      simp [postNavigate, ha, hi]
    · have hmem2 := getD_mem_of_lt ids (i - 1) "" hlen2
      obtain ⟨q2, hq2⟩ := Option.isSome_iff_exists.mp (hcat _ hmem2)
      simp only [hpost]
      rw [tqp_get_eq i _ st ids _ (i - 1) q2 hlen2 hq2]
  · simp only [hpost]

/-- Witness for (amended) C6: `next` from index 0 of the two-question
session redirects to index 1, the stored index stays 0 across the advance,
and serving the redirected view sets it to 1. -/
theorem claim6_witness :
    (test_question_page twoQuestionSession 0 (Method.post nextOnlyForm)).1
      = Response.redirectQuestion (0 + 1)
    ∧ (test_question_page
        (test_question_page twoQuestionSession 0 (Method.post nextOnlyForm)).2
        (0 + 1) Method.get).2.current_question_index = some (0 + 1)
    ∧ (test_question_page twoQuestionSession 0
        (Method.post nextOnlyForm)).2.current_question_index = some 0 :=
  ⟨((claim6_advance_directives 0 [] "t0" ["m1", "m2"] [] 0 nextOnlyForm
      (by decide) (by decide)).2.2.1 rfl (by decide)).1,
   ((claim6_advance_directives 0 [] "t0" ["m1", "m2"] [] 0 nextOnlyForm
      (by decide) (by decide)).2.2.1 rfl (by decide)).2,
   (claim6_advance_directives 0 [] "t0" ["m1", "m2"] [] 0 nextOnlyForm
      (by decide) (by decide)).2.2.2.2⟩

/-! ## Claim C7 -/

/-- C7: once the session passes the shape checks and the start time parses,
`results` renders the in-memory score report computed from the recorded
answers for *both* persistence outcomes — a failed save is caught, the
report is still returned (with no saved-score id) — and the five
test-session keys are cleared from the store regardless. -/
theorem claim7_finalize_clears_and_reports (sess : TestSession)
    (a : List (String × String)) (t : String) (persist_ok : Bool)
    (new_score_id : Nat) (h1 : sess.answers = some a)
    (h2 : sess.start_time = some t) (h3 : t ≠ "") :
    results sess true persist_ok new_score_id
      = (ResultsResponse.renderResults (calculate_mock_score a)
           (if persist_ok then some new_score_id else none),
         { sess with current_question_index := none, answers := none,
                     start_time := none, test_questions_ids_ordered := none,
                     marked_for_review := none }) := by
  simp [results, h1, h2, h3]

/-- Witness for C7 at a concrete session with a failing persistence step. -/
theorem claim7_witness :
    dirtySession.answers = some [("m1", "7")]
    ∧ results dirtySession true false 1
      = (ResultsResponse.renderResults (calculate_mock_score [("m1", "7")]) none,
         ⟨none, none, none, none, none⟩) :=
  ⟨rfl, claim7_finalize_clears_and_reports dirtySession [("m1", "7")] "old-time"
     false 1 rfl rfl (by decide)⟩

/-! ## Claim C8 -/

lemma mem_dictSet (m : List (String × String)) (k v : String)
    (p : String × String) (hp : p ∈ dictSet m k v) : p = (k, v) ∨ p ∈ m := by
  unfold dictSet at hp
  by_cases h : m.any (fun p => p.1 == k)
  · rw [if_pos h] at hp
    obtain ⟨p0, hp0, heq⟩ := List.mem_map.mp hp
    by_cases h2 : (p0.1 == k) = true
    · rw [if_pos h2] at heq
      exact Or.inl heq.symm
    · rw [if_neg h2] at heq
      exact Or.inr (heq ▸ hp0)
  · rw [if_neg h] at hp
    rcases List.mem_append.mp hp with h1 | h1
    · exact Or.inr h1
    · exact Or.inl (by simpa using h1)

lemma mem_dictInsertTrue (m : List String) (k x : String)
    (hx : x ∈ dictInsertTrue m k) : x = k ∨ x ∈ m := by
  unfold dictInsertTrue at hx
  by_cases h : m.contains k
  · rw [if_pos h] at hx
    exact Or.inr hx
  · rw [if_neg h] at hx
    rcases List.mem_append.mp hx with h1 | h1
    · exact Or.inr h1
    · exact Or.inl (by simpa using h1)

lemma mem_dictPop (m : List String) (k x : String) (hx : x ∈ dictPop m k) :
    x ∈ m :=
  (List.mem_filter.mp hx).1

lemma not_mem_dictPop (m : List String) (k : String) : k ∉ dictPop m k := by
  intro h
  have := (List.mem_filter.mp h).2
  simp at this

lemma postUpdate_answers_mem (ans : List (String × String)) (marked : List String)
    (qid : String) (form : FormData) (p : String × String)
    (hp : p ∈ (postUpdate ans marked qid form).1) : p.1 = qid ∨ p ∈ ans := by
  cases ha : form.answer with
  | none =>
    simp only [postUpdate, ha] at hp
    exact Or.inr hp
  | some v =>
    by_cases hv : v = ""
    · simp only [postUpdate, ha, if_pos hv] at hp
      exact Or.inr hp
    · simp only [postUpdate, ha, if_neg hv] at hp
      rcases mem_dictSet ans qid v p hp with h | h
      · exact Or.inl (by rw [h])
      · exact Or.inr h

lemma postUpdate_marked_mem (ans : List (String × String)) (marked : List String)
    (qid : String) (form : FormData) (x : String)
    (hx : x ∈ (postUpdate ans marked qid form).2) : x = qid ∨ x ∈ marked := by
  by_cases hm : form.mark_review = some "true"
  · simp only [postUpdate, if_pos hm] at hx
    exact mem_dictInsertTrue marked qid x hx
  · simp only [postUpdate, if_neg hm] at hx
    exact Or.inr (mem_dictPop marked qid x hx)

/-- C8: every question-page request — in particular every answer recording
and review toggle — preserves the invariant that the keys of `answers` and
of `marked_for_review` lie inside the session's ordered id list; an id
outside that list is never accepted into either mapping. -/
theorem claim8_session_keys_invariant (sess : TestSession) (q_idx : Nat)
    (m : Method) (hinv : SessionKeysInv sess) :
    SessionKeysInv (test_question_page sess q_idx m).2 := by
  obtain ⟨cq, ao, so, io, mo⟩ := sess
  cases cq with
  | none => cases ao <;> cases so <;> cases io <;> cases mo <;> exact hinv
  | some cur =>
  cases ao with
  | none => cases so <;> cases io <;> cases mo <;> exact hinv
  | some ans =>
  cases so with
  | none => cases io <;> cases mo <;> exact hinv
  | some st =>
  cases io with
  | none => cases mo <;> exact hinv
  | some ids =>
  cases mo with
  | none => exact hinv
  | some marked =>
  by_cases hE : ids.isEmpty
  · have hr : test_question_page ⟨some cur, some ans, some st, some ids, some marked⟩ q_idx m
        = (Response.redirectIndex, ⟨some cur, some ans, some st, some ids, some marked⟩) := by
      simp [test_question_page, hE]
    rw [hr]
    exact hinv
  · by_cases hlt : q_idx < ids.length
    · have hqid : ids.getD q_idx "" ∈ ids := getD_mem_of_lt ids q_idx "" hlt
      cases hq : questionLookup (ids.getD q_idx "") with
      | none =>
        rw [tqp_lookup_none_eq cur ans st ids marked q_idx m hlt hq]
        exact hinv
      | some q =>
        cases m with
        | get =>
          rw [tqp_get_eq cur ans st ids marked q_idx q hlt hq]
          exact hinv
        | post form =>
          rw [tqp_post_eq cur ans st ids marked q_idx form q hlt hq]
          constructor
          · intro p hp
            rcases postUpdate_answers_mem ans marked (ids.getD q_idx "") form p hp with h | h
            · simpa [h] using hqid
            · exact hinv.1 p h
          · intro x hx
            rcases postUpdate_marked_mem ans marked (ids.getD q_idx "") form x hx with h | h
            · simpa [h] using hqid
            · exact hinv.2 x h
    · have hne : ids ≠ [] := by
        intro h
        rw [h] at hE
        exact hE rfl
      rw [tqp_oob_eq cur ans st ids marked q_idx m hne (by omega)]
      exact hinv

/-- Witness for C8 at a concrete session and an answer-recording POST. -/
theorem claim8_witness :
    SessionKeysInv dirtySession
    ∧ SessionKeysInv (test_question_page dirtySession 0
        (Method.post ⟨some "7", none, some "next"⟩)).2 :=
  ⟨by decide,
   claim8_session_keys_invariant dirtySession 0
     (Method.post ⟨some "7", none, some "next"⟩) (by decide)⟩

/-! ## Claim C9 -/

/-- C9: every in-range question-page request — a read-only view or an
answer submission alike — stores the requested index as
`current_question_index`, leaves the ordered id list unchanged, and keeps
the bounds invariant `0 ≤ currentIndex < len(orderedQuestionIds)`. -/
theorem claim9_view_sets_current_index (cur : Nat)
    (ans : List (String × String)) (st : String) (ids marked : List String)
    (i : Nat) (m : Method) (hlt : i < ids.length) :
    (test_question_page ⟨some cur, some ans, some st, some ids, some marked⟩ i
        m).2.current_question_index = some i
    ∧ (test_question_page ⟨some cur, some ans, some st, some ids, some marked⟩ i
        m).2.test_questions_ids_ordered = some ids
    ∧ i < ids.length := by
  cases hq : questionLookup (ids.getD i "") with
  | none =>
    rw [tqp_lookup_none_eq cur ans st ids marked i m hlt hq]
    exact ⟨rfl, rfl, hlt⟩
  | some q =>
    cases m with
    | get =>
      rw [tqp_get_eq cur ans st ids marked i q hlt hq]
      exact ⟨rfl, rfl, hlt⟩
    | post form =>
      rw [tqp_post_eq cur ans st ids marked i form q hlt hq]
      exact ⟨rfl, rfl, hlt⟩

/-- Witness for C9 at a concrete viewed index. -/
theorem claim9_witness :
    (test_question_page ⟨some 1, some [], some "t0", some ["m1", "m2"], some []⟩ 0
        Method.get).2.current_question_index = some 0
    ∧ (test_question_page ⟨some 1, some [], some "t0", some ["m1", "m2"], some []⟩ 0
        Method.get).2.test_questions_ids_ordered = some ["m1", "m2"]
    ∧ 0 < (["m1", "m2"] : List String).length :=
  claim9_view_sets_current_index 1 [] "t0" ["m1", "m2"] [] 0 Method.get (by decide)

/-! ## Claim C10 -/

/-- C10: on every answer-submission POST for an in-range, catalog-resolved
question, the review set is rewritten unconditionally: it becomes an insert
of the question id when the form carries `mark_review = 'true'` and a
removal of that id otherwise — so a POST whose review field is absent or
not `'true'` clears an existing mark, and no POST leaves the review mark
untouched while recording an answer. -/
theorem claim10_post_rewrites_review_mark (cur : Nat)
    (ans : List (String × String)) (st : String) (ids marked : List String)
    (i : Nat) (form : FormData) (q : Question) (hlt : i < ids.length)
    (hq : questionLookup (ids.getD i "") = some q) :
    (test_question_page ⟨some cur, some ans, some st, some ids, some marked⟩ i
        (Method.post form)).2.marked_for_review
      = some (if form.mark_review = some "true" then
          dictInsertTrue marked (ids.getD i "")
        else dictPop marked (ids.getD i ""))
    ∧ (form.mark_review ≠ some "true" →
      ids.getD i "" ∉
        ((test_question_page ⟨some cur, some ans, some st, some ids, some marked⟩ i
          (Method.post form)).2.marked_for_review.getD [])) := by
  have hpost := tqp_post_eq cur ans st ids marked i form q hlt hq
  constructor
  · simp only [hpost]
    simp [postUpdate]
  · intro hm
    simp only [hpost]
    simp only [postUpdate, if_neg hm, Option.getD_some]
    exact not_mem_dictPop marked (ids.getD i "")

/-- Witness for C10: recording an answer with no review field clears the
previously set mark on `"m1"`. -/
theorem claim10_witness :
    (test_question_page ⟨some 0, some [], some "t0", some ["m1"], some ["m1"]⟩ 0
        (Method.post ⟨some "7", none, some "next"⟩)).2.marked_for_review
      = some (if (⟨some "7", none, some "next"⟩ : FormData).mark_review = some "true" then
          dictInsertTrue ["m1"] ((["m1"] : List String).getD 0 "")
        else dictPop ["m1"] ((["m1"] : List String).getD 0 ""))
    ∧ ((⟨some "7", none, some "next"⟩ : FormData).mark_review ≠ some "true" →
      (["m1"] : List String).getD 0 "" ∉
        ((test_question_page ⟨some 0, some [], some "t0", some ["m1"], some ["m1"]⟩ 0
          (Method.post ⟨some "7", none, some "next"⟩)).2.marked_for_review.getD [])) :=
  claim10_post_rewrites_review_mark 0 [] "t0" ["m1"] ["m1"] 0
    ⟨some "7", none, some "next"⟩ ⟨"m1", "7"⟩ (by decide) (by decide)
